import Mathlib

/-!
# Verification of the BTC/ETH/SOL data-engineering pipeline

Shallow embedding of the repository's core modules:

* `extraction.py` — daily pagination walker `fetch_data` (plus `validate_data`);
* `extraction_hourly.py` — hourly pagination walker `fetch_hourly_data`;
* `transformation.py` — `clean_daily_sol_data` and `transform_daily_crypto_data`;
* `transformation_hourly.py` — the hourly transformation stages and driver.

Conventions of the embedding:

* Timestamps are `Int` (seconds since the Unix epoch); `datetime` values are
  compared through their epoch seconds, which is order-isomorphic to the
  Python comparisons on `datetime` objects.
* A Python `dict` record coming from the API is a structure of `Option`-typed
  fields: `none` models an absent key, and reading an absent key is the
  `KeyError` path.
* Price/volume floats are modelled as `ℚ`.  No claim depends on float
  rounding; the `'{:.2f}'.format` presentation of `trade_vol_USD` in
  `transformation.py` is a floating-point formatting detail that is not
  modelled (the field is carried through unchanged).
* The network is an oracle `Nat → Int → FetchOutcome _`: the outcome of the
  k-th HTTP request of a run, issued with the walker's current cursor `toTs`.
  `requests.get` + `raise_for_status` + `.json()['Data']['Data']` either
  yield a page (list of records), raise a `requests.exceptions.RequestException`
  (this includes `HTTPError`, which `raise_for_status` raises for **both**
  4xx and 5xx statuses, and connection/timeout errors), or raise an exception
  outside `RequestException` (e.g. `KeyError` on a malformed body), which the
  `except requests.exceptions.RequestException` clause does not catch.
* The unbounded `while True:` loop is run on fuel; `none` means the fuel was
  exhausted (the loop was still running), `some r` that the loop finished
  with result `r`.
-/

/-- A value of `requests.exceptions.RequestException`: `raise_for_status`
raises `HTTPError` (a `RequestException` subclass) for any 4xx or 5xx
status; connection, timeout and other network errors are also
`RequestException`s.  Both are caught by the walkers' `except` clause. -/
inductive ReqExc where
  | httpError (status : Nat)
  | connectionError (code : Nat)
deriving DecidableEq, Repr

/-- Outcome of one HTTP request in a walker iteration (the body of the `try`
up to and including `response.json()['Data']['Data']`). -/
inductive FetchOutcome (ρ : Type) where
  | page (batch : List ρ)
  | exc (e : ReqExc)
  | bodyError (code : Nat)
deriving DecidableEq, Repr

/-- An exception escaping a walker. -/
inductive WalkError where
  | reraised (e : ReqExc)
  | uncaught (code : Nat)
  | indexError
  | keyError
deriving DecidableEq, Repr

/-- One record of a CryptoCompare API page, a Python dict: `none` fields model
absent keys (`open` is a Lean keyword, hence the field name `open_px`). -/
structure ApiRecord where
  time : Option Int
  high : Option ℚ
  low : Option ℚ
  open_px : Option ℚ
  close : Option ℚ
  volumefrom : Option ℚ
  volumeto : Option ℚ
deriving DecidableEq, Repr

/-- extraction.py `validate_data`: all required keys are present. -/
def validate_data (record : ApiRecord) : Bool :=
  record.time.isSome && record.high.isSome && record.low.isSome &&
  record.open_px.isSome && record.close.isSome &&
  record.volumefrom.isSome && record.volumeto.isSome

/-- extraction.py: `MAX_RETRIES = 3`. -/
def MAX_RETRIES_daily : Nat := 3

/-- extraction_hourly.py: `MAX_RETRIES = 5`. -/
def MAX_RETRIES_hourly : Nat := 5

/-- Loop state of `fetch_data` (extraction.py): the cursor `toTs`, the retry
counter and the accumulated record list `data`. -/
structure DailyState where
  toTs : Int
  retries : Nat
  data : List ApiRecord
deriving DecidableEq, Repr

/-- Result of one iteration of a walker loop. -/
inductive StepResult (σ ρ : Type) where
  | next (s : σ)
  | done (rows : List ρ)
  | fail (e : WalkError)
deriving DecidableEq, Repr

/-- One iteration of the `while True:` loop of `fetch_data` (extraction.py),
given the outcome of this iteration's HTTP request:

* on a page, each record is validated and the valid ones appended to `data`;
  then `batch[-1]` (IndexError on an empty batch, KeyError when the record
  has no `'time'`) is compared with the start date: strictly earlier means
  `break`; otherwise `toTs = batch[0]['time']` and `retries = 0`;
* on a `RequestException`, `retries += 1` and the exception is re-raised
  once `retries > MAX_RETRIES`;
* on any other exception (malformed body), it propagates uncaught. -/
def fetch_data_step (start_date : Int) (s : DailyState) (o : FetchOutcome ApiRecord) :
    StepResult DailyState ApiRecord :=
  match o with
  | .page batch =>
    let data := s.data ++ batch.filter validate_data
    match batch.getLast? with
    | none => .fail .indexError
    | some lastRecord =>
      match lastRecord.time with
      | none => .fail .keyError
      | some lastTime =>
        if lastTime < start_date then .done data
        else
          match batch.head? with
          | none => .fail .indexError
          | some firstRecord =>
            match firstRecord.time with
            | none => .fail .keyError
            | some firstTime => .next ⟨firstTime, 0, data⟩
  | .exc e =>
    let retries := s.retries + 1
    if retries > MAX_RETRIES_daily then .fail (.reraised e)
    else .next ⟨s.toTs, retries, s.data⟩
  | .bodyError code => .fail (.uncaught code)

/-- The `while True:` loop of `fetch_data`, on fuel.  `k` is the index of the
next HTTP request, fed to the oracle together with the current cursor. -/
def fetch_data_go (start_date : Int) (oracle : Nat → Int → FetchOutcome ApiRecord) :
    DailyState → Nat → Nat → Option (Except WalkError (List ApiRecord))
  | _, _, 0 => none
  | s, k, fuel + 1 =>
    match fetch_data_step start_date s (oracle k s.toTs) with
    | .next s' => fetch_data_go start_date oracle s' (k + 1) fuel
    | .done rows => some (.ok rows)
    | .fail e => some (.error e)

/-- extraction.py `fetch_data`: cursor initialised to the end date's
timestamp, retry counter 0, empty accumulator. -/
def fetch_data (start_date end_date : Int) (oracle : Nat → Int → FetchOutcome ApiRecord)
    (fuel : Nat) : Option (Except WalkError (List ApiRecord)) :=
  fetch_data_go start_date oracle ⟨end_date, 0, []⟩ 0 fuel

/-- One row of an hourly page after `pd.DataFrame(batch)` — the hourly walker
never calls its `validate_hourly_data`, so rows are taken as delivered. -/
structure HourlyRow where
  time : Int
  high : ℚ
  low : ℚ
  open_px : ℚ
  close : ℚ
  volumefrom : ℚ
  volumeto : ℚ
deriving DecidableEq, Repr

/-- Loop state of `fetch_hourly_data` (extraction_hourly.py): `all_data` is
the list of accumulated chunks, concatenated after the loop. -/
structure HourlyState where
  toTs : Int
  retries : Nat
  all_data : List (List HourlyRow)
deriving DecidableEq, Repr

/-- `data_chunk['time'].min()` over a chunk's rows. -/
def chunk_min_time (batch : List HourlyRow) : Option Int :=
  (batch.map HourlyRow.time).min?

/-- One iteration of the `while True:` loop of `fetch_hourly_data`
(extraction_hourly.py):

* on a page, `pd.DataFrame(batch)` of an empty batch has no `'time'` column,
  so the conversion line raises `KeyError` (uncaught); otherwise the chunk
  is appended to `all_data`, the walk breaks when the chunk's minimum time
  is strictly before the start timestamp, and otherwise
  `toTs = data_chunk['time'].min()` — the retry counter is **not** reset
  anywhere on the success path;
* on a `RequestException`, `retries += 1`, re-raised once
  `retries > MAX_RETRIES`;
* on any other exception, it propagates uncaught.

On `break` the function returns `pd.concat(all_data)` (the join of the
chunks); the subsequent integrity checks only log warnings. -/
def fetch_hourly_data_step (start_timestamp : Int) (s : HourlyState)
    (o : FetchOutcome HourlyRow) : StepResult HourlyState HourlyRow :=
  match o with
  | .page batch =>
    match chunk_min_time batch with
    | none => .fail .keyError
    | some m =>
      let all_data := s.all_data ++ [batch]
      if m < start_timestamp then .done all_data.flatten
      else .next ⟨m, s.retries, all_data⟩
  | .exc e =>
    let retries := s.retries + 1
    if retries > MAX_RETRIES_hourly then .fail (.reraised e)
    else .next ⟨s.toTs, retries, s.all_data⟩
  | .bodyError code => .fail (.uncaught code)

/-- The `while True:` loop of `fetch_hourly_data`, on fuel. -/
def fetch_hourly_data_go (start_timestamp : Int)
    (oracle : Nat → Int → FetchOutcome HourlyRow) :
    HourlyState → Nat → Nat → Option (Except WalkError (List HourlyRow))
  | _, _, 0 => none
  | s, k, fuel + 1 =>
    match fetch_hourly_data_step start_timestamp s (oracle k s.toTs) with
    | .next s' => fetch_hourly_data_go start_timestamp oracle s' (k + 1) fuel
    | .done rows => some (.ok rows)
    | .fail e => some (.error e)

/-- extraction_hourly.py `fetch_hourly_data`. -/
def fetch_hourly_data (start_timestamp end_timestamp : Int)
    (oracle : Nat → Int → FetchOutcome HourlyRow) (fuel : Nat) :
    Option (Except WalkError (List HourlyRow)) :=
  fetch_hourly_data_go start_timestamp oracle ⟨end_timestamp, 0, []⟩ 0 fuel

/-! ## transformation.py -/

/-- Python's `str.zfill(width)`: pad with leading zeros up to `width`. -/
def zfill (width : Nat) (s : String) : String :=
  String.mk (List.replicate (width - s.length) '0') ++ s

/-- One row of a daily data CSV (`btc_data.csv`, ...), as read by
transformation.py (`open` is a Lean keyword, hence `open_px`). -/
structure CsvRow where
  time : Int
  high : ℚ
  low : ℚ
  open_px : ℚ
  close : ℚ
  volumefrom : ℚ
  volumeto : ℚ
  conversionType : String
  conversionSymbol : String
deriving DecidableEq, Repr

/-- The epoch day of an epoch-second timestamp.  On `Int`, `/` is Euclidean
division, which for the positive divisor 86400 is floor division — exactly
what `pd.to_datetime(_, unit='s').dt.strftime('%Y-%m-%d')` followed by
`pd.to_datetime` computes, up to the order-isomorphism between days and
`%Y-%m-%d` strings re-parsed as midnight datetimes. -/
def day_number (t : Int) : Int := t / 86400

/-- transformation.py `START_DATE = '2020-04-20'` as an epoch day
(18262 days to 2020-01-01, plus 110). -/
def START_DATE_day : Int := 18372

/-- transformation.py `END_DATE = '2024-01-03'` as an epoch day
(18262 + 1461 days to 2024-01-01, plus 2). -/
def END_DATE_day : Int := 19725

/-- One output row of `transform_daily_crypto_data`, with the renames
(`volumefrom` → `trade_vol_native`, `volumeto` → `trade_vol_USD`), the
dropped columns (`time`, `conversionType`, `conversionSymbol`) and the final
column order encoded in the structure.  `trade_vol_USD` is carried as the
number itself; its `'{:.2f}'.format` string rendering is a float-formatting
presentation detail outside the embedding. -/
structure DailyOutRow where
  record_id : String
  coin_symbol : String
  date : Int
  open_px : ℚ
  low : ℚ
  high : ℚ
  close : ℚ
  trade_vol_native : ℚ
  trade_vol_USD : ℚ
deriving DecidableEq, Repr

/-- The row at (0-based) position `i` of the input produces this output row:
`record_id = f"{prefix}{str(i + 1).zfill(2)}"` (ids are assigned from the
**pre-filter** row positions, 1-based). -/
def transform_daily_row (sym : String) (i : Nat) (r : CsvRow) : DailyOutRow :=
  { record_id := sym ++ zfill 2 (toString (i + 1))
    coin_symbol := sym
    date := day_number r.time
    open_px := r.open_px
    low := r.low
    high := r.high
    close := r.close
    trade_vol_native := r.volumefrom
    trade_vol_USD := r.volumeto }

/-- transformation.py `transform_daily_crypto_data`, as the function from the
input CSV's rows to the rows written to `transformed_{sym}_daily_data.csv`:
record ids and all per-row conversions happen first, in input row order (no
sorting step exists anywhere in the pipeline), and the date-range filter
`START_DATE ≤ date ≤ END_DATE` runs **after** id assignment. -/
def transform_daily_crypto_rows (sym : String) (data : List CsvRow) : List DailyOutRow :=
  (data.enum.map (fun p => transform_daily_row sym p.1 p.2)).filter
    (fun r => START_DATE_day ≤ r.date && r.date ≤ END_DATE_day)

/-- The row-keeping predicate of `clean_daily_sol_data`:
`(open != 0) & (high != 0) & (low != 0) & (close != 0)` — a row is kept only
when **every** one of the four price fields is non-zero. -/
def clean_sol_row_kept (r : CsvRow) : Bool :=
  (r.open_px != 0) && (r.high != 0) && (r.low != 0) && (r.close != 0)

/-- The file system as seen by `clean_daily_sol_data`: parsed CSV contents by
path (`none` = no file at that path). -/
def FileSystem : Type := String → Option (List CsvRow)

/-- Writing (or copying) a file. -/
def fs_write (fs : FileSystem) (path : String) (rows : List CsvRow) : FileSystem :=
  fun p => if p = path then some rows else fs p

inductive CleanError where
  | fileNotFoundError
deriving DecidableEq, Repr

/-- Python's `str.replace(old, new)` on character lists, for a non-empty
`old` (the only use below is `old = ".csv"`): every non-overlapping
occurrence, left to right.  The recursion is bounded by the list length so
that the function unfolds by plain reduction; one character is consumed per
step, so the bound is never hit. -/
def list_replace_aux (old new : List Char) : List Char → Nat → List Char
  | l, 0 => l
  | [], _ + 1 => []
  | c :: rest, n + 1 =>
    if List.isPrefixOf old (c :: rest) then
      new ++ list_replace_aux old new (rest.drop (old.length - 1)) n
    else c :: list_replace_aux old new rest n

/-- `csv_path.replace('.csv', f'_backup_{timestamp}.csv')`. -/
def backup_path_of (csv_path timestamp : String) : String :=
  String.mk
    (list_replace_aux ".csv".data ("_backup_" ++ timestamp ++ ".csv").data
      csv_path.data csv_path.data.length)

/-- transformation.py `clean_daily_sol_data`.  `timestamp` is
`datetime.now().strftime("%Y%m%d_%H%M%S")`, passed in explicitly.  The
backup path is `csv_path.replace('.csv', f'_backup_{timestamp}.csv')`.
The backup is copied **only when no file exists at the backup path**; the
cleaned data is then written over `csv_path` unconditionally.  The
missing-required-columns `ValueError` branch is unreachable here because
rows are typed with all four price columns present. -/
def clean_daily_sol_data (timestamp : String) (csv_path : String) (fs : FileSystem) :
    Except CleanError FileSystem :=
  match fs csv_path with
  | none => .error .fileNotFoundError
  | some _ =>
    let backup_path := backup_path_of csv_path timestamp
    let fs1 : FileSystem :=
      match fs backup_path, fs csv_path with
      | none, some original => fs_write fs backup_path original
      | _, _ => fs
    match fs1 csv_path with
    | none => .error .fileNotFoundError
    | some sol_data =>
      .ok (fs_write fs1 csv_path (sol_data.filter clean_sol_row_kept))

/-! ## transformation_hourly.py

The duck-typed `pd.DataFrame` is modelled as an ordered association list of
named columns.  `read_csv_file` returns the parsed frame, or an empty frame
on any read error; the frame handed to `transform_hourly_data` below stands
for that result. -/

/-- One cell of a column.  `timestamp t` is a cell whose content
`pd.to_datetime` parses (the hourly CSVs hold datetime strings written by
extraction_hourly.py), `malformed` one on which it raises. -/
inductive Cell where
  | num (x : ℚ)
  | text (v : String)
  | timestamp (t : Int)
  | malformed
deriving DecidableEq, Repr

/-- A DataFrame: named columns in order. -/
abbrev Frame := List (String × List Cell)

def Frame.hasCol (f : Frame) (c : String) : Bool :=
  (List.any f fun col => col.1 == c)

def Frame.getCol (f : Frame) (c : String) : Option (List Cell) :=
  (List.find? (fun col => col.1 == c) f).map (fun col => col.2)

/-- `data[c] = cells`: overwrite the column in place, or append it. -/
def Frame.setCol (f : Frame) (c : String) (cells : List Cell) : Frame :=
  if Frame.hasCol f c then List.map (fun col => if col.1 == c then (c, cells) else col) f
  else f ++ [(c, cells)]

def Frame.dropCol (f : Frame) (c : String) : Frame :=
  List.filter (fun col => col.1 != c) f

/-- `data.insert(i, c, cells)`. -/
def Frame.insertCol (f : Frame) (i : Nat) (c : String) (cells : List Cell) : Frame :=
  List.take i f ++ [(c, cells)] ++ List.drop i f

def Frame.renameCol (f : Frame) (a b : String) : Frame :=
  List.map (fun col => if col.1 == a then (b, col.2) else col) f

/-- `len(data)`: the row count — the length of the columns (all columns of a
well-formed DataFrame have the same length; the first one is read here). -/
def Frame.numRows (f : Frame) : Nat :=
  match f with
  | [] => 0
  | col :: _ => col.2.length

/-- `data.empty`: true when either axis has length 0. -/
def frame_empty (f : Frame) : Bool :=
  List.isEmpty f || List.any f (fun col => col.2.isEmpty)

/-- What `pd.to_datetime` makes of one cell: epoch seconds, or a raised
parse error (`none`). -/
def cell_to_datetime (c : Cell) : Option Int :=
  match c with
  | .timestamp t => some t
  | _ => none

/-- transformation_hourly.py `transform_time_column`: inside `try`, derive
`date` and `hour` from the time column and drop it; **any** exception (a
missing time column, an unparseable cell) is caught, logged and the
original frame is returned unchanged.  The `%Y-%m-%d` date string is
rendered as the epoch-day ordinal and `%H` as the zero-padded hour — both
renderings are injective and order-isomorphic to the originals, and no
claim inspects their text. -/
def transform_time_column (data : Frame) (time_column : String) : Frame :=
  match Frame.getCol data time_column with
  | none => data
  | some cells =>
    match cells.mapM cell_to_datetime with
    | none => data
    | some ts =>
      Frame.dropCol
        (Frame.setCol
          (Frame.setCol data "date" (ts.map (fun t => Cell.text (toString (t / 86400)))))
          "hour" (ts.map (fun t => Cell.text (zfill 2 (toString ((t % 86400) / 3600))))))
        time_column

/-- The ids `generate_record_id` writes:
`coin_symbol + '_H' + str(i).zfill(5)` for `i` in `range(1, count + 1)`. -/
def record_id_cells (coin_symbol : String) (record_count : Nat) : List Cell :=
  (List.range record_count).map
    (fun i => Cell.text (coin_symbol ++ "_H" ++ zfill 5 (toString (i + 1))))

/-- transformation_hourly.py `generate_record_id`: adds the `record_id`
column (its `try` body cannot raise — `len`, `range`, `zfill` and a column
assignment are total here). -/
def generate_record_id (data : Frame) (coin_symbol : String) : Frame :=
  Frame.setCol data "record_id" (record_id_cells coin_symbol (Frame.numRows data))

/-- The output column order of transformation_hourly.py. -/
def column_order : List String :=
  ["record_id", "coin_symbol", "date", "hour", "open", "low", "high", "close",
   "hr_trade_vol_native", "hr_trade_vol_USD"]

/-- transformation_hourly.py `rename_and_reorder_columns`: inside `try`,
insert `coin_symbol` at position 1 (pandas raises if the column already
exists), rename the volume columns in place, then select `column_order`;
a raised exception (e.g. `KeyError` when `date` is missing because the time
transformation failed) is caught, logged, and the frame **as mutated so
far** is returned. -/
def rename_and_reorder_columns (data : Frame) (coin_symbol : String) : Frame :=
  if Frame.hasCol data "coin_symbol" then data
  else
    let f1 := Frame.insertCol data 1 "coin_symbol"
      (List.replicate (Frame.numRows data) (Cell.text coin_symbol))
    let f2 := Frame.renameCol (Frame.renameCol f1 "VOL_NATIVE" "hr_trade_vol_native")
      "VOL_USD" "hr_trade_vol_USD"
    if column_order.all (fun c => Frame.hasCol f2 c) then
      column_order.map (fun c => (c, (Frame.getCol f2 c).getD []))
    else f2

def cell_lt_zero (c : Cell) : Bool :=
  match c with
  | .num x => decide (x < 0)
  | _ => false

/-- transformation_hourly.py `validate_data`: every required column present
(else `False`), and no negative value in the numeric columns (else
`False`); the missing-values check only logs a warning. -/
def validate_hourly_frame (data : Frame) (required_columns numeric_columns : List String) :
    Bool :=
  if required_columns.all (fun c => Frame.hasCol data c) then
    !(numeric_columns.any (fun c => ((Frame.getCol data c).getD []).any cell_lt_zero))
  else false

def required_columns_hourly : List String :=
  ["time", "high", "low", "open", "close", "VOL_NATIVE", "VOL_USD"]

def numeric_columns_hourly : List String := ["high", "low", "open", "close"]

/-- transformation_hourly.py `transform_hourly_data` for one symbol, from the
frame `read_csv_file` produced to the frame written (as
`transformed_{sym}_hourly_data.csv`): `none` means the function returned
before `save_transformed_data`, i.e. no output artifact was written.  After
validation passes, every stage's exceptions are swallowed inside the stage,
so the save at the end always runs. -/
def transform_hourly_data (csv_data : Frame) (coin_symbol : String) : Option Frame :=
  if frame_empty csv_data then none
  else if !(validate_hourly_frame csv_data required_columns_hourly numeric_columns_hourly)
  then none
  else
    let d1 := transform_time_column csv_data "time"
    let d2 := generate_record_id d1 coin_symbol
    some (rename_and_reorder_columns d2 coin_symbol)

/-! ## Concrete fixtures shared by the claims -/

/-- A fully-populated API record with timestamp `t` and unit prices. -/
def apiRec (t : Int) : ApiRecord :=
  ⟨some t, some 1, some 1, some 1, some 1, some 1, some 1⟩

/-- An hourly row with timestamp `t` and unit prices. -/
def hRow (t : Int) : HourlyRow := ⟨t, 1, 1, 1, 1, 1, 1⟩

/-- A daily CSV row on epoch day `d` with unit prices. -/
def dayRow (d : Int) : CsvRow := ⟨d * 86400, 1, 1, 1, 1, 1, 1, "direct", ""⟩

/-- The row with `open = 0` and `high = low = close = 1` (fields of `CsvRow`
are time, high, low, open, close, volumes, passthroughs). -/
def c3_row : CsvRow := ⟨1, 1, 1, 0, 1, 1, 1, "direct", ""⟩

def c3_fs : FileSystem := fun p => if p = "sol_data.csv" then some [c3_row] else none

/-- An hourly input frame whose single `time` cell `pd.to_datetime` cannot
parse; all required columns are present and the numeric columns are
non-negative, so validation passes. -/
def c9_frame : Frame :=
  [("time", [Cell.malformed]), ("high", [Cell.num 1]), ("low", [Cell.num 1]),
   ("open", [Cell.num 1]), ("close", [Cell.num 1]),
   ("VOL_NATIVE", [Cell.num 2]), ("VOL_USD", [Cell.num 3])]

/-- A row whose four price fields are all zero (dropped by the cleaner). -/
def c10_zero_row : CsvRow := ⟨2, 0, 0, 0, 0, 5, 5, "direct", ""⟩

/-- Input content of `sol_data.csv` in the C10 scenario. -/
def c10_rows : List CsvRow := [c10_zero_row, dayRow 18373]

/-- The backup path the cleaner derives for `sol_data.csv` at timestamp
`20240102_120000`. -/
def c10_bpath : String := backup_path_of "sol_data.csv" "20240102_120000"

/-- Content of an unrelated file that already sits at the backup path. -/
def c10_junk : List CsvRow := []

/-- A file system holding the input CSV and a pre-existing file at the
backup name. -/
def c10_fs : FileSystem := fun p =>
  if p = "sol_data.csv" then some c10_rows
  else if p = c10_bpath then some c10_junk else none

/-- The file system of the C10 witness: only the input CSV exists, so the
backup is actually written. -/
def c10w_fs : FileSystem := fun p => if p = "sol_data.csv" then some c10_rows else none

/-- The file system `clean_daily_sol_data` produces from `c10w_fs`. -/
def c10w_result : FileSystem :=
  fs_write (fs_write c10w_fs c10_bpath c10_rows) "sol_data.csv"
    (c10_rows.filter clean_sol_row_kept)

/-- The walk never finishes: every fuel bound is exhausted with the loop
still running. -/
def fetch_data_never_terminates (start_date end_date : Int)
    (oracle : Nat → Int → FetchOutcome ApiRecord) : Prop :=
  ∀ fuel, fetch_data start_date end_date oracle fuel = none

/-- A source answering every request with the single record timestamped at
exactly the requested cursor — a valid page in the claim's sense (its
timestamp is *at most* the cursor, and a one-record page is trivially
newest-first). -/
def c2_oracle : Nat → Int → FetchOutcome ApiRecord := fun _ c => .page [apiRec c]

/-- A strictly-valid daily source: the page at cursor `c` holds one record
timestamped `c - 1`. -/
def c2w_src : Int → List ApiRecord := fun c => [apiRec (c - 1)]

/-- A strictly-valid hourly source. -/
def c2w_srcH : Int → List HourlyRow := fun c => [hRow (c - 1)]

/-! ## C1 — boundary check and cursor advance -/

/-- C1, counterexample.  Take the newest-first page `[time 5, time 3]` with
`start_boundary = 1` and cursor 10.  The page's earliest timestamp is 3 and
is not earlier than the boundary, so the claim requires the next cursor to
be 3 — but the daily walker sets `toTs = batch[0]['time'] = 5`, the page's
**first** (newest) timestamp. -/
theorem c1_counterexample :
    (([apiRec 5, apiRec 3].filterMap ApiRecord.time).min? = some 3) ∧
    ¬ ((3 : Int) < 1) ∧
    fetch_data_step 1 ⟨10, 0, []⟩ (.page [apiRec 5, apiRec 3]) =
      .next ⟨5, 0, [apiRec 5, apiRec 3]⟩ ∧
    (5 : Int) ≠ 3 :=
  ⟨rfl, by norm_num, rfl, by norm_num⟩

/-- C1, amended.  For every non-empty page: the **hourly** walker behaves as
the claim states (stop when the page's minimum timestamp is strictly earlier
than the start boundary, otherwise advance the cursor to that minimum),
while the **daily** walker runs its stop test on the page's *last* record's
timestamp and advances the cursor to the page's *first* record's timestamp —
these coincide with the earliest timestamp only for pages sorted
ascending (resp. descending) by time. -/
theorem c1_amended (start_date : Int) (s : HourlyState) (batch : List HourlyRow)
    (m : Int) (hm : chunk_min_time batch = some m)
    (sd : DailyState) (dbatch : List ApiRecord) (lastR firstR : ApiRecord) (tl tf : Int)
    (hl : dbatch.getLast? = some lastR) (hlt : lastR.time = some tl)
    (hf : dbatch.head? = some firstR) (hft : firstR.time = some tf) :
    (m < start_date → fetch_hourly_data_step start_date s (.page batch) =
        .done (s.all_data ++ [batch]).flatten) ∧
    (¬ m < start_date → fetch_hourly_data_step start_date s (.page batch) =
        .next ⟨m, s.retries, s.all_data ++ [batch]⟩) ∧
    (tl < start_date → fetch_data_step start_date sd (.page dbatch) =
        .done (sd.data ++ dbatch.filter validate_data)) ∧
    (¬ tl < start_date → fetch_data_step start_date sd (.page dbatch) =
        .next ⟨tf, 0, sd.data ++ dbatch.filter validate_data⟩) := by
  refine ⟨fun h => ?_, fun h => ?_, fun h => ?_, fun h => ?_⟩ <;>
    simp [fetch_hourly_data_step, fetch_data_step, hm, hl, hlt, hf, hft, h]

/-- C1, witness for `c1_amended` at the page `[time 5, time 3]`,
`start_boundary = 1`. -/
theorem c1_witness :
    ((3 : Int) < 1 → fetch_hourly_data_step 1 ⟨10, 0, []⟩ (.page [hRow 5, hRow 3]) =
        .done ([] ++ [[hRow 5, hRow 3]]).flatten) ∧
    (¬ (3 : Int) < 1 → fetch_hourly_data_step 1 ⟨10, 0, []⟩ (.page [hRow 5, hRow 3]) =
        .next ⟨3, 0, [] ++ [[hRow 5, hRow 3]]⟩) ∧
    ((3 : Int) < 1 → fetch_data_step 1 ⟨10, 0, []⟩ (.page [apiRec 5, apiRec 3]) =
        .done ([] ++ [apiRec 5, apiRec 3].filter validate_data)) ∧
    (¬ (3 : Int) < 1 → fetch_data_step 1 ⟨10, 0, []⟩ (.page [apiRec 5, apiRec 3]) =
        .next ⟨5, 0, [] ++ [apiRec 5, apiRec 3].filter validate_data⟩) :=
  c1_amended 1 ⟨10, 0, []⟩ [hRow 5, hRow 3] 3 rfl
    ⟨10, 0, []⟩ [apiRec 5, apiRec 3] (apiRec 3) (apiRec 5) 3 5 rfl rfl rfl rfl

/-! ## C3 — the Solana cleaning predicate -/



/-- C3: the code contradicts its own docstring ("removing rows where 'high',
'low', 'open', and 'close' are all zero").  The filter
`(open != 0) & (high != 0) & (low != 0) & (close != 0)` keeps a row only
when every price field is non-zero, so a record whose `open` alone is zero
(high = low = close = 1) is **dropped**, where the claim (and the
docstring) retain it: running `clean_daily_sol_data` on a file holding just
that record rewrites the file to be empty. -/
theorem c3_code_evaluation :
    clean_sol_row_kept c3_row = false ∧
    (clean_daily_sol_data "20240102_120000" "sol_data.csv" c3_fs).map
        (fun fs => fs "sol_data.csv") = .ok (some []) :=
  ⟨rfl, rfl⟩

/-! ## C4 — retry accounting -/

/-- C4, counterexample.  Hourly walk, `MAX_RETRIES = 5`: the oracle fails on
every even-numbered call and succeeds (with a page that keeps the walk
going) on every odd-numbered one, so **no page fetch ever sees two
consecutive transient failures** — far below any per-page threshold — yet
the walk fails with the re-raised transient error on the 6th overall
failure, because `fetch_hourly_data` never resets `retries` after a
successful page. -/
theorem c4_counterexample :
    fetch_hourly_data 0 100
      (fun k _ => if k % 2 = 0 then .exc (.connectionError 7) else .page [hRow (90 - k)])
      12 = some (.error (.reraised (.connectionError 7))) := rfl

/-- C4, amended.  In the **daily** walker the claim's accounting holds with
`max_attempts = MAX_RETRIES + 1 = 4`: a transient failure is fatal (the last
underlying error re-raised) exactly when `MAX_RETRIES` failures already
preceded it, and every successful page fetch resets the counter to 0, so
attempts are scoped per page.  In the **hourly** walker the same threshold
reads `MAX_RETRIES = 5`, but a successful page fetch leaves the counter
unchanged: transient failures accumulate over the whole series. -/
theorem c4_amended (start_date : Int) (s : DailyState) (sh : HourlyState) (e : ReqExc) :
    (fetch_data_step start_date s (.exc e) = .fail (.reraised e) ↔
      MAX_RETRIES_daily ≤ s.retries) ∧
    (∀ batch s', fetch_data_step start_date s (.page batch) = .next s' → s'.retries = 0) ∧
    (fetch_hourly_data_step start_date sh (.exc e) = .fail (.reraised e) ↔
      MAX_RETRIES_hourly ≤ sh.retries) ∧
    (∀ batch s', fetch_hourly_data_step start_date sh (.page batch) = .next s' →
      s'.retries = sh.retries) := by
  refine ⟨?_, ?_, ?_, ?_⟩
  · simp only [fetch_data_step, MAX_RETRIES_daily]
    constructor
    · intro h
      split at h
      · omega
      · exact absurd h (by simp)
    · intro h
      rw [if_pos (by omega)]
  · intro batch s' h
    simp only [fetch_data_step] at h
    repeat' split at h
    all_goals first | (cases h; rfl) | cases h
  · simp only [fetch_hourly_data_step, MAX_RETRIES_hourly]
    constructor
    · intro h
      split at h
      · omega
      · exact absurd h (by simp)
    · intro h
      rw [if_pos (by omega)]
  · intro batch s' h
    simp only [fetch_hourly_data_step] at h
    repeat' split at h
    all_goals first | (cases h; rfl) | cases h

/-! ## C5 — no transient/permanent distinction -/

/-- C5, counterexample.  The first call returns HTTP 404: `raise_for_status`
raises `HTTPError`, a `RequestException`, which the walker **retries** like
any network error; the second call returns a page below the start boundary
and the walk completes successfully.  Under the claim a 4xx response should
have failed the fetch immediately with no retry. -/
theorem c5_counterexample :
    fetch_data 5 10
      (fun k _ => if k = 0 then .exc (.httpError 404) else .page [apiRec 3]) 10
      = some (.ok [apiRec 3]) := rfl

/-- C5, amended.  The daily walker draws no line between 4xx and 5xx: every
`requests.exceptions.RequestException` — HTTP errors of either class as well
as connection/timeout errors — is retried while the attempt budget lasts,
and only failures **outside** `RequestException` (e.g. a `KeyError` from a
malformed response body) escape immediately, as the raw exception rather
than any dedicated error type. -/
theorem c5_amended (start_date : Int) (s : DailyState) (e : ReqExc) (code : Nat)
    (h : s.retries + 1 ≤ MAX_RETRIES_daily) :
    fetch_data_step start_date s (.exc e) = .next ⟨s.toTs, s.retries + 1, s.data⟩ ∧
    fetch_data_step start_date s (.bodyError code) = .fail (.uncaught code) := by
  refine ⟨?_, rfl⟩
  simp only [fetch_data_step, MAX_RETRIES_daily] at *
  rw [if_neg (by omega)]

/-- C5, witness for `c5_amended`: a fresh state retrying a 404. -/
theorem c5_witness :
    fetch_data_step 5 ⟨10, 0, []⟩ (.exc (.httpError 404)) = .next ⟨10, 0 + 1, []⟩ ∧
    fetch_data_step 5 ⟨10, 0, []⟩ (.bodyError 7) = .fail (.uncaught 7) :=
  c5_amended 5 ⟨10, 0, []⟩ (.httpError 404) 7 (by norm_num [MAX_RETRIES_daily])

/-! ## C6 — empty pages crash the walkers -/

/-- C6, counterexample.  An empty page makes the daily walk raise
`IndexError` (`batch[-1]` on an empty list) and the hourly walk raise
`KeyError` (`pd.DataFrame([])` has no `'time'` column); neither is caught,
so the walk aborts with an error instead of terminating as Done. -/
theorem c6_counterexample :
    fetch_data 1 10 (fun _ _ => .page []) 5 = some (.error .indexError) ∧
    fetch_hourly_data 1 10 (fun _ _ => .page []) 5 = some (.error .keyError) :=
  ⟨rfl, rfl⟩

/-- C6, amended.  From any state, an empty page is an uncaught exception for
both walkers — `IndexError` in the daily walker, `KeyError` in the hourly
one — not a successful Done. -/
theorem c6_amended (start_date : Int) (s : DailyState) (sh : HourlyState) :
    fetch_data_step start_date s (.page []) = .fail .indexError ∧
    fetch_hourly_data_step start_date sh (.page []) = .fail .keyError :=
  ⟨rfl, rfl⟩

/-! ## Frame lemmas -/

theorem frame_getCol_map_set (c : String) (cells : List Cell) :
    ∀ f : Frame, Frame.hasCol f c = true →
      Frame.getCol (f.map (fun col => if col.1 == c then (c, cells) else col)) c
        = some cells := by
  intro f
  induction f with
  | nil => intro h; simp [Frame.hasCol] at h
  | cons col rest ih =>
    intro h
    by_cases h1 : (col.1 == c) = true
    · rw [List.map_cons, if_pos h1]
      unfold Frame.getCol
      rw [List.find?_cons_of_pos _ (by simp)]
      rfl
    · have h2 : Frame.hasCol rest c = true := by
        simp only [Frame.hasCol, List.any_cons, Bool.or_eq_true] at h
        exact h.resolve_left h1
      have h1' : (col.1 == c) = false := by simpa using h1
      rw [List.map_cons, if_neg h1]
      unfold Frame.getCol
      simp only [List.find?_cons, h1']
      exact ih h2

theorem frame_getCol_append (c : String) (cells : List Cell) :
    ∀ f : Frame, Frame.hasCol f c = false →
      Frame.getCol (f ++ [(c, cells)]) c = some cells := by
  intro f
  induction f with
  | nil => intro _; simp [Frame.getCol]
  | cons col rest ih =>
    intro h
    simp only [Frame.hasCol, List.any_cons, Bool.or_eq_false_iff] at h
    rw [List.cons_append]
    unfold Frame.getCol
    simp only [List.find?_cons, h.1]
    exact ih (by simpa [Frame.hasCol] using h.2)

theorem Frame.getCol_setCol (f : Frame) (c : String) (cells : List Cell) :
    Frame.getCol (Frame.setCol f c cells) c = some cells := by
  by_cases hc : Frame.hasCol f c = true
  · rw [Frame.setCol, if_pos hc]
    exact frame_getCol_map_set c cells f hc
  · rw [Frame.setCol, if_neg hc]
    exact frame_getCol_append c cells f (by simpa using hc)

/-! ## C7 — no re-sort anywhere in the pipeline -/

theorem transform_daily_row_date (sym : String) (i : Nat) (r : CsvRow) :
    (transform_daily_row sym i r).date = day_number r.time := rfl

theorem transform_daily_row_id (sym : String) (i : Nat) (r : CsvRow) :
    (transform_daily_row sym i r).record_id = sym ++ zfill 2 (toString (i + 1)) := rfl

/-- The dates of the transformed rows, generalized over the enumeration
offset: they are exactly the in-range day numbers of the input rows **in
input row order**. -/
theorem transform_daily_dates_go (sym : String) (data : List CsvRow) : ∀ k : Nat,
    ((((List.enumFrom k data).map (fun p => transform_daily_row sym p.1 p.2)).filter
        (fun r => START_DATE_day ≤ r.date && r.date ≤ END_DATE_day)).map DailyOutRow.date)
      = (data.map (fun r => day_number r.time)).filter
          (fun d => START_DATE_day ≤ d && d ≤ END_DATE_day) := by
  induction data with
  | nil => intro k; rfl
  | cons r rest ih =>
    intro k
    simp only [List.enumFrom_cons, List.map_cons, List.filter_cons, transform_daily_row_date]
    by_cases h : (START_DATE_day ≤ day_number r.time && day_number r.time ≤ END_DATE_day) = true
    · simp only [h, if_true, List.map_cons, transform_daily_row_date, ih (k + 1)]
    · simp [eq_false_of_ne_true h, ih (k + 1)]

/-- C7, counterexample.  Two in-range rows in descending time order: the
emitted dates are `[18373, 18372]`, in input order and **not**
non-decreasing — nothing in `transform_daily_crypto_data` (or anywhere else
in the pipeline) re-sorts the series. -/
theorem c7_counterexample :
    (transform_daily_crypto_rows "BTC" [dayRow 18373, dayRow 18372]).map DailyOutRow.date
      = [18373, 18372] ∧
    ¬ List.Chain' (· ≤ ·)
        ((transform_daily_crypto_rows "BTC" [dayRow 18373, dayRow 18372]).map
          DailyOutRow.date) := by
  refine ⟨rfl, ?_⟩
  intro h
  rw [show (transform_daily_crypto_rows "BTC" [dayRow 18373, dayRow 18372]).map
      DailyOutRow.date = [18373, 18372] from rfl] at h
  exact absurd (List.chain'_cons.mp h).1 (by norm_num)

/-- C7, amended.  The transformation performs no sort: the emitted dates are
the day numbers of the input timestamps, in input row order, filtered to the
configured range; consequently the output dates are non-decreasing exactly
when the raw series already arrived in ascending time order (which the
backward-paginating extractor does not guarantee). -/
theorem c7_amended (sym : String) (data : List CsvRow) :
    ((transform_daily_crypto_rows sym data).map DailyOutRow.date
      = (data.map (fun r => day_number r.time)).filter
          (fun d => START_DATE_day ≤ d && d ≤ END_DATE_day)) ∧
    (List.Sorted (· ≤ ·) (data.map (fun r => r.time)) →
      List.Sorted (· ≤ ·) ((transform_daily_crypto_rows sym data).map DailyOutRow.date)) := by
  have hdates : (transform_daily_crypto_rows sym data).map DailyOutRow.date
      = (data.map (fun r => day_number r.time)).filter
          (fun d => START_DATE_day ≤ d && d ≤ END_DATE_day) :=
    transform_daily_dates_go sym data 0
  refine ⟨hdates, fun hsorted => ?_⟩
  rw [hdates]
  have hmap : (data.map (fun r => day_number r.time))
      = (data.map (fun r => r.time)).map day_number := by
    rw [List.map_map]; rfl
  rw [hmap]
  exact List.Pairwise.filter _
    (List.Pairwise.map day_number
      (fun a b hab => Int.ediv_le_ediv (by norm_num) hab) hsorted)

/-! ## C8 — record-id assignment -/

/-- The record ids of the transformed rows, generalized over the enumeration
offset: each surviving row keeps the id built from its **pre-filter**
position, zero-padded to width 2 only. -/
theorem transform_daily_ids_go (sym : String) (data : List CsvRow) : ∀ k : Nat,
    ((((List.enumFrom k data).map (fun p => transform_daily_row sym p.1 p.2)).filter
        (fun r => START_DATE_day ≤ r.date && r.date ≤ END_DATE_day)).map DailyOutRow.record_id)
      = ((List.enumFrom k data).filter (fun p =>
            START_DATE_day ≤ day_number p.2.time && day_number p.2.time ≤ END_DATE_day)).map
          (fun p => sym ++ zfill 2 (toString (p.1 + 1))) := by
  induction data with
  | nil => intro k; rfl
  | cons r rest ih =>
    intro k
    simp only [List.enumFrom_cons, List.map_cons, List.filter_cons, transform_daily_row_date]
    by_cases h : (START_DATE_day ≤ day_number r.time && day_number r.time ≤ END_DATE_day) = true
    · simp only [h, if_true, List.map_cons, transform_daily_row_id, ih (k + 1)]
    · simp [eq_false_of_ne_true h, ih (k + 1)]

/-- C8, counterexample.  A two-row daily input whose first row predates
`START_DATE`: the emitted record ids are `["BTC02"]` — the only output row's
sequence number is 2, not 1 (ids are assigned before the date filter, so
the output numbering has a gap), and the id is padded to width 2
(`str(i).zfill(2)`), not to the claimed `BTC00001` form. -/
theorem c8_counterexample :
    (transform_daily_crypto_rows "BTC" [dayRow 18300, dayRow 18373]).map
      DailyOutRow.record_id = ["BTC02"] := rfl

/-- C8, amended.  Daily: the emitted ids are `sym ++ str(position + 1).zfill(2)`
for exactly the pre-filter positions whose day survives the date filter — so
sequence numbers are assigned in input order but are **not** re-based after
filtering (gaps are possible, and the width is 2, growing for numbers over
99).  Hourly: `generate_record_id` writes the column
`sym ++ '_H' ++ str(i).zfill(5)` for `i = 1 .. len(data)`, exactly `1..N` in
order. -/
theorem c8_amended (sym : String) (data : List CsvRow) (f : Frame) :
    ((transform_daily_crypto_rows sym data).map DailyOutRow.record_id
      = (data.enum.filter (fun p =>
            START_DATE_day ≤ day_number p.2.time && day_number p.2.time ≤ END_DATE_day)).map
          (fun p => sym ++ zfill 2 (toString (p.1 + 1)))) ∧
    Frame.getCol (generate_record_id f sym) "record_id"
      = some (record_id_cells sym (Frame.numRows f)) := by
  constructor
  · exact transform_daily_ids_go sym data 0
  · exact Frame.getCol_setCol f "record_id" (record_id_cells sym (Frame.numRows f))

/-! ## C9 — output despite stage failures (hourly pipeline) -/


/-- C9, counterexample.  On `c9_frame` the time-transformation stage raises
(and swallows) a parse error, the reorder stage raises (and swallows) a
`KeyError` on the missing `date` column — yet `transform_hourly_data` still
reaches `save_transformed_data` and writes an output artifact that retains
the raw `time` column and has no `date` or `hour`: a partially-normalized
output file, produced despite stage errors. -/
theorem c9_counterexample :
    validate_hourly_frame c9_frame required_columns_hourly numeric_columns_hourly = true ∧
    (transform_hourly_data c9_frame "BTC").map
        (fun f => (Frame.hasCol f "time", Frame.hasCol f "date", Frame.hasCol f "hour"))
      = some (true, false, false) :=
  ⟨rfl, rfl⟩

/-- C9, amended.  The hourly pipeline writes an output artifact **exactly
when** the input frame is non-empty and passes validation; failures in the
later stages (time transformation, id generation, rename/reorder) are
logged and swallowed inside the stage, so they never prevent the final
save — the saved data may then be only partially normalized. -/
theorem c9_amended (csv_data : Frame) (coin_symbol : String) :
    (transform_hourly_data csv_data coin_symbol).isSome
      = (!frame_empty csv_data &&
         validate_hourly_frame csv_data required_columns_hourly numeric_columns_hourly) := by
  unfold transform_hourly_data
  cases h1 : frame_empty csv_data
  · cases h2 : validate_hourly_frame csv_data required_columns_hourly numeric_columns_hourly
    · simp [h1, h2]
    · simp [h1, h2]
  · simp [h1]

/-! ## C10 — the Solana cleaner's backup discipline -/






/-- C10, counterexample.  With a file already present at the derived backup
name, `clean_daily_sol_data` rewrites `sol_data.csv` in place (its content
changes) while writing **no** backup copy of the original anywhere: the
backup path still holds the unrelated pre-existing content afterwards.  The
claim's "it first writes a timestamped backup copy of the original file" is
false in this state. -/
theorem c10_counterexample :
    (clean_daily_sol_data "20240102_120000" "sol_data.csv" c10_fs).map
        (fun fs => (fs "sol_data.csv", fs c10_bpath))
      = .ok (some [dayRow 18373], some c10_junk) ∧
    some ([dayRow 18373] : List CsvRow) ≠ c10_fs "sol_data.csv" ∧
    c10_junk ≠ c10_rows := by
  refine ⟨rfl, ?_, ?_⟩
  · intro h
    rw [show c10_fs "sol_data.csv" = some c10_rows from rfl] at h
    simp only [Option.some.injEq, c10_rows] at h
    exact absurd (congrArg List.length h) (by simp)
  · intro h
    rw [c10_junk, c10_rows] at h
    cases h

/-- C10, amended.  When `clean_daily_sol_data` succeeds: no path other than
the input CSV and the derived backup path is modified; a file already
present at the backup path is never overwritten (provided that path differs
from the input path — they coincide only when the input path does not
contain `.csv`); the backup copy of the original is written exactly when no
file yet exists at the backup name; and the input CSV is rewritten in place
with precisely the rows passing the zero-price filter. -/
theorem c10_amended (timestamp csv_path : String) (fs fs' : FileSystem)
    (h : clean_daily_sol_data timestamp csv_path fs = .ok fs') :
    (∀ p, p ≠ csv_path → p ≠ backup_path_of csv_path timestamp → fs' p = fs p) ∧
    (backup_path_of csv_path timestamp ≠ csv_path →
      ∀ c, fs (backup_path_of csv_path timestamp) = some c →
        fs' (backup_path_of csv_path timestamp) = some c) ∧
    (∀ rows, fs csv_path = some rows →
      (fs (backup_path_of csv_path timestamp) = none →
        fs' (backup_path_of csv_path timestamp) = some rows) ∧
      fs' csv_path = some (rows.filter clean_sol_row_kept)) := by
  unfold clean_daily_sol_data at h
  cases hcsv : fs csv_path with
  | none =>
    rw [hcsv] at h
    exact Except.noConfusion h
  | some rows0 =>
    rw [hcsv] at h
    dsimp only at h
    cases hb : fs (backup_path_of csv_path timestamp) with
    | none =>
      rw [hb] at h
      dsimp only at h
      by_cases hpe : csv_path = backup_path_of csv_path timestamp
      · rw [← hpe] at hb
        rw [hcsv] at hb
        cases hb
      · have hfs1 : fs_write fs (backup_path_of csv_path timestamp) rows0 csv_path
            = some rows0 := by
          simp [fs_write, hpe, hcsv]
        rw [hfs1] at h
        dsimp only at h
        simp only [Except.ok.injEq] at h
        subst h
        refine ⟨?_, ?_, ?_⟩
        · intro p hp1 hp2
          simp [fs_write, hp1, hp2]
        · intro _ c hc
          cases hc
        · intro rows hrows
          cases hrows
          constructor
          · intro _
            have hne' : backup_path_of csv_path timestamp ≠ csv_path :=
              fun hx => hpe hx.symm
            simp [fs_write, hne']
          · simp [fs_write]
    | some c0 =>
      rw [hb] at h
      dsimp only at h
      rw [hcsv] at h
      dsimp only at h
      simp only [Except.ok.injEq] at h
      subst h
      refine ⟨?_, ?_, ?_⟩
      · intro p hp1 hp2
        simp [fs_write, hp1]
      · intro hne c hc
        simp [fs_write, hne, hb, hc]
      · intro rows hrows
        cases hrows
        constructor
        · intro hbn
          cases hbn
        · simp [fs_write]



/-- C10, witness for `c10_amended` on `c10w_fs`. -/
theorem c10_witness :
    (∀ p, p ≠ "sol_data.csv" → p ≠ backup_path_of "sol_data.csv" "20240102_120000" →
      c10w_result p = c10w_fs p) ∧
    (backup_path_of "sol_data.csv" "20240102_120000" ≠ "sol_data.csv" →
      ∀ c, c10w_fs (backup_path_of "sol_data.csv" "20240102_120000") = some c →
        c10w_result (backup_path_of "sol_data.csv" "20240102_120000") = some c) ∧
    (∀ rows, c10w_fs "sol_data.csv" = some rows →
      (c10w_fs (backup_path_of "sol_data.csv" "20240102_120000") = none →
        c10w_result (backup_path_of "sol_data.csv" "20240102_120000") = some rows) ∧
      c10w_result "sol_data.csv" = some (rows.filter clean_sol_row_kept)) :=
  c10_amended "20240102_120000" "sol_data.csv" c10w_fs c10w_result rfl

/-! ## C2 — termination of the walkers -/



theorem c2_stalls (k : Nat) (s : DailyState) (hs : 5 ≤ s.toTs) :
    ∀ fuel, fetch_data_go 5 c2_oracle s k fuel = none := by
  intro fuel
  induction fuel generalizing k s with
  | zero => rfl
  | succ fuel ih =>
    have hstep : fetch_data_step 5 s (c2_oracle k s.toTs)
        = .next ⟨s.toTs, 0, s.data ++ [apiRec s.toTs]⟩ := by
      simp [c2_oracle, fetch_data_step, apiRec, validate_data, Int.not_lt.mpr hs]
    rw [fetch_data_go, hstep]
    exact ih (k + 1) _ hs

/-- C2, counterexample.  With `start_boundary = 5 < 10 = end_boundary` and
the valid source `c2_oracle` (every returned record's timestamp equals —
hence is at most — the requested cursor), the daily walk never terminates:
the boundary test `batch[-1]['time'] < start` never fires and the cursor
`toTs = batch[0]['time']` never decreases.  (The same source stalls the
hourly walker, whose cursor is the page minimum, equally stuck at the
cursor.) -/
theorem c2_counterexample :
    fetch_data_never_terminates 5 10 c2_oracle ∧ (5 : Int) < 10 ∧
    (∀ k c, c2_oracle k c = .page [apiRec c]) :=
  ⟨fun fuel => c2_stalls 0 ⟨10, 0, []⟩ (by norm_num) fuel, by norm_num, fun _ _ => rfl⟩

/-- Termination of the daily walk under strict page validity: every page is
non-empty and every record on a page requested at cursor `c` is timestamped
strictly before `c`. -/
theorem fetch_data_go_terminates (start_date end_date : Int) (src : Int → List ApiRecord)
    (hsrc : ∀ c, ∀ r ∈ src c, ∃ t, r.time = some t ∧ t < c) (hne : ∀ c, src c ≠ []) :
    ∀ (m : Nat) (s : DailyState) (k : Nat),
      (s.toTs - start_date).toNat ≤ m → s.toTs ≤ end_date →
      (∀ r ∈ s.data, ∀ t, r.time = some t → t ≤ end_date) →
      ∃ fuel rows,
        fetch_data_go start_date (fun _ c => .page (src c)) s k fuel = some (.ok rows) ∧
        ∀ r ∈ rows, ∀ t, r.time = some t → t ≤ end_date := by
  intro m
  induction m with
  | zero =>
    intro s k hm hend hdata
    have hb := hne s.toTs
    obtain ⟨tl, htl, htlc⟩ := hsrc s.toTs _ (List.getLast_mem hb)
    have hbr : tl < start_date := by omega
    have hstep : fetch_data_step start_date s (.page (src s.toTs))
        = .done (s.data ++ (src s.toTs).filter validate_data) := by
      simp [fetch_data_step, List.getLast?_eq_getLast _ hb, htl, hbr]
    refine ⟨1, s.data ++ (src s.toTs).filter validate_data, by rw [fetch_data_go, hstep], ?_⟩
    intro r hr t ht
    rcases List.mem_append.mp hr with hr | hr
    · exact hdata r hr t ht
    · obtain ⟨t', ht', ht'c⟩ := hsrc s.toTs r (List.mem_of_mem_filter hr)
      rw [ht] at ht'
      cases ht'
      omega
  | succ m ih =>
    intro s k hm hend hdata
    have hb := hne s.toTs
    obtain ⟨tl, htl, htlc⟩ := hsrc s.toTs _ (List.getLast_mem hb)
    have hdata' : ∀ r ∈ s.data ++ (src s.toTs).filter validate_data,
        ∀ t, r.time = some t → t ≤ end_date := by
      intro r hr t ht
      rcases List.mem_append.mp hr with hr | hr
      · exact hdata r hr t ht
      · obtain ⟨t', ht', ht'c⟩ := hsrc s.toTs r (List.mem_of_mem_filter hr)
        rw [ht] at ht'
        cases ht'
        omega
    by_cases hbr : tl < start_date
    · have hstep : fetch_data_step start_date s (.page (src s.toTs))
          = .done (s.data ++ (src s.toTs).filter validate_data) := by
        simp [fetch_data_step, List.getLast?_eq_getLast _ hb, htl, hbr]
      exact ⟨1, s.data ++ (src s.toTs).filter validate_data,
        by rw [fetch_data_go, hstep], hdata'⟩
    · obtain ⟨tf, htf, htfc⟩ := hsrc s.toTs _ (List.head_mem hb)
      have hstep : fetch_data_step start_date s (.page (src s.toTs))
          = .next ⟨tf, 0, s.data ++ (src s.toTs).filter validate_data⟩ := by
        simp [fetch_data_step, List.getLast?_eq_getLast _ hb, htl, hbr,
          List.head?_eq_head hb, htf]
      obtain ⟨fuel, rows, hrun, hbound⟩ :=
        ih ⟨tf, 0, s.data ++ (src s.toTs).filter validate_data⟩ (k + 1)
          (by dsimp only; omega) (by dsimp only; omega) hdata'
      exact ⟨fuel + 1, rows, by rw [fetch_data_go, hstep]; exact hrun, hbound⟩

/-- The minimum of a non-empty chunk's time column exists, is attained and
bounds every row. -/
theorem chunk_min_time_spec (batch : List HourlyRow) (hb : batch ≠ []) :
    ∃ m, chunk_min_time batch = some m ∧ (∃ r ∈ batch, r.time = m) ∧
      ∀ r ∈ batch, m ≤ r.time := by
  obtain ⟨m, hmin⟩ : ∃ m, (batch.map HourlyRow.time).min? = some m := by
    cases batch with
    | nil => exact absurd rfl hb
    | cons r rest => exact ⟨_, rfl⟩
  refine ⟨m, hmin, ?_, ?_⟩
  · obtain ⟨r, hr, hrt⟩ := List.mem_map.mp (List.min?_mem (fun a b => min_choice a b) hmin)
    exact ⟨r, hr, hrt⟩
  · intro r hr
    exact (List.le_min?_iff (fun a b c => le_min_iff) hmin).mp (le_refl m) _
      (List.mem_map_of_mem _ hr)

/-- Termination of the hourly walk under strict page validity. -/
theorem fetch_hourly_go_terminates (start_timestamp end_timestamp : Int)
    (src : Int → List HourlyRow)
    (hsrc : ∀ c, ∀ r ∈ src c, r.time < c) (hne : ∀ c, src c ≠ []) :
    ∀ (m : Nat) (s : HourlyState) (k : Nat),
      (s.toTs - start_timestamp).toNat ≤ m → s.toTs ≤ end_timestamp →
      (∀ chunk ∈ s.all_data, ∀ r ∈ chunk, r.time ≤ end_timestamp) →
      ∃ fuel rows,
        fetch_hourly_data_go start_timestamp (fun _ c => .page (src c)) s k fuel
          = some (.ok rows) ∧
        ∀ r ∈ rows, r.time ≤ end_timestamp := by
  intro m
  induction m with
  | zero =>
    intro s k hm hend hchunks
    obtain ⟨mn, hmin, ⟨rm, hrm, hrmt⟩, hmle⟩ := chunk_min_time_spec (src s.toTs) (hne s.toTs)
    have hmc : mn < s.toTs := by have := hsrc s.toTs rm hrm; omega
    have hbr : mn < start_timestamp := by omega
    have hstep : fetch_hourly_data_step start_timestamp s (.page (src s.toTs))
        = .done (s.all_data ++ [src s.toTs]).flatten := by
      simp [fetch_hourly_data_step, hmin, hbr]
    refine ⟨1, _, by rw [fetch_hourly_data_go, hstep], ?_⟩
    intro r hr
    obtain ⟨chunk, hchunk, hrchunk⟩ := List.mem_flatten.mp hr
    rcases List.mem_append.mp hchunk with hc | hc
    · exact hchunks chunk hc r hrchunk
    · have hcs : chunk = src s.toTs := by simpa using hc
      subst hcs
      have := hsrc s.toTs r hrchunk
      omega
  | succ m ih =>
    intro s k hm hend hchunks
    obtain ⟨mn, hmin, ⟨rm, hrm, hrmt⟩, hmle⟩ := chunk_min_time_spec (src s.toTs) (hne s.toTs)
    have hmc : mn < s.toTs := by have := hsrc s.toTs rm hrm; omega
    have hchunks' : ∀ chunk ∈ s.all_data ++ [src s.toTs], ∀ r ∈ chunk,
        r.time ≤ end_timestamp := by
      intro chunk hchunk r hrchunk
      rcases List.mem_append.mp hchunk with hc | hc
      · exact hchunks chunk hc r hrchunk
      · have hcs : chunk = src s.toTs := by simpa using hc
        subst hcs
        have := hsrc s.toTs r hrchunk
        omega
    by_cases hbr : mn < start_timestamp
    · have hstep : fetch_hourly_data_step start_timestamp s (.page (src s.toTs))
          = .done (s.all_data ++ [src s.toTs]).flatten := by
        simp [fetch_hourly_data_step, hmin, hbr]
      refine ⟨1, _, by rw [fetch_hourly_data_go, hstep], ?_⟩
      intro r hr
      obtain ⟨chunk, hchunk, hrchunk⟩ := List.mem_flatten.mp hr
      exact hchunks' chunk hchunk r hrchunk
    · have hstep : fetch_hourly_data_step start_timestamp s (.page (src s.toTs))
          = .next ⟨mn, s.retries, s.all_data ++ [src s.toTs]⟩ := by
        simp [fetch_hourly_data_step, hmin, hbr]
      obtain ⟨fuel, rows, hrun, hbound⟩ :=
        ih ⟨mn, s.retries, s.all_data ++ [src s.toTs]⟩ (k + 1)
          (by dsimp only; omega) (by dsimp only; omega) hchunks'
      exact ⟨fuel + 1, rows, by rw [fetch_hourly_data_go, hstep]; exact hrun, hbound⟩

/-- C2, amended.  The claim's validity condition must be strengthened from
"each returned record's timestamp is at most the requested cursor" to
*strictly earlier than* the requested cursor, with pages non-empty (a page
at the cursor stalls the walk — see the counterexample — and an empty page
crashes it).  Under that strict validity, both walkers terminate for any
`start_boundary < end_boundary` and the assembled raw series contains no
record with a timestamp later than `end_boundary`. -/
theorem c2_amended (start_date end_date : Int) (_hlt : start_date < end_date)
    (src : Int → List ApiRecord)
    (hsrc : ∀ c, ∀ r ∈ src c, ∃ t, r.time = some t ∧ t < c) (hne : ∀ c, src c ≠ [])
    (srcH : Int → List HourlyRow)
    (hsrcH : ∀ c, ∀ r ∈ srcH c, r.time < c) (hneH : ∀ c, srcH c ≠ []) :
    (∃ fuel rows,
        fetch_data start_date end_date (fun _ c => .page (src c)) fuel = some (.ok rows) ∧
        ∀ r ∈ rows, ∀ t, r.time = some t → t ≤ end_date) ∧
    (∃ fuel rows,
        fetch_hourly_data start_date end_date (fun _ c => .page (srcH c)) fuel
          = some (.ok rows) ∧
        ∀ r ∈ rows, r.time ≤ end_date) := by
  constructor
  · exact fetch_data_go_terminates start_date end_date src hsrc hne
      ((end_date - start_date).toNat) ⟨end_date, 0, []⟩ 0
      (by dsimp only; omega) (by dsimp only; omega) (by simp)
  · exact fetch_hourly_go_terminates start_date end_date srcH hsrcH hneH
      ((end_date - start_date).toNat) ⟨end_date, 0, []⟩ 0
      (by dsimp only; omega) (by dsimp only; omega) (by simp)



/-- C2, witness for `c2_amended` on the strictly-valid one-record-per-page
sources, with boundaries 0 < 2. -/
theorem c2_witness :
    (∃ fuel rows,
        fetch_data 0 2 (fun _ c => .page (c2w_src c)) fuel = some (.ok rows) ∧
        ∀ r ∈ rows, ∀ t, r.time = some t → t ≤ 2) ∧
    (∃ fuel rows,
        fetch_hourly_data 0 2 (fun _ c => .page (c2w_srcH c)) fuel = some (.ok rows) ∧
        ∀ r ∈ rows, r.time ≤ 2) :=
  c2_amended 0 2 (by norm_num) c2w_src
    (fun c r hr => by
      have hr' : r = apiRec (c - 1) := by simpa [c2w_src] using hr
      exact ⟨c - 1, by rw [hr']; rfl, by omega⟩)
    (fun c => by simp [c2w_src])
    c2w_srcH
    (fun c r hr => by
      have hr' : r = hRow (c - 1) := by simpa [c2w_srcH] using hr
      rw [hr']
      show c - 1 < c
      omega)
    (fun c => by simp [c2w_srcH])
